import Mathlib

/-!
Verification of the data-quality rule engine of the Order-to-Insight repository.

The development shallowly embeds the engine (src/ingestion/dq_rules.py,
src/ingestion/dq_runner.py and the run gate of src/ingestion/ingest.py) in Lean:

* a pandas DataFrame becomes a Lean list of typed rows whose cells are `Val`
  (a cell is a string, an integer, an exact rational standing in for a float,
  or null/NaN);
* pandas primitives are embedded by operations on lists:
  boolean-mask indexing becomes `List.filter`, `duplicated(keep=False)` counts
  occurrences of the key value, `astype(str)` becomes `pyStr` (Python str(),
  with str(NaN) = "nan"), `dropna` filters nulls, `set(...unique())` membership
  becomes list membership, `merge(how=left)` becomes `leftJoin`,
  `pd.concat` becomes `List.flatten`, `head(n)` becomes `List.take`;
* `pd.to_datetime(..., utc=True, errors=coerce)` is abstracted as a parameter
  `parseTs : Val → Option Int` returning the parsed instant or `none` (NaT);
  the concrete parser `cparse` instantiates it for executable examples.
  Facts that need the real parser property that NaN input yields NaT take the
  hypothesis `parseTs Val.vnull = none`;
* floating-point failure rates are computed in `ℚ` with the exact formula the
  code uses (`failed / total`, `0` when `total = 0`).

A second, heap-level embedding (`Heap`, `run_quality_checks_h`) makes pandas
object allocation and in-place mutation explicit, to settle the frame claim
that the runner never mutates its caller-supplied inputs.
-/

/-- Value stored in one cell of a dataset: a string, an integer, a rational
(standing in for a Python float) or null (NaN/None). -/
inductive Val where
  | vstr : String → Val
  | vint : Int → Val
  | vrat : ℚ → Val
  | vnull : Val
deriving DecidableEq

/-- Python str() of a cell, as produced by astype(str): strings unchanged,
numbers printed, NaN printed as the string nan. (Exact float formatting is
abstracted; no claim depends on the printed form of a rational.) -/
def pyStr : Val → String
  | Val.vstr s => s
  | Val.vint n => toString n
  | Val.vrat q => toString q
  | Val.vnull => "nan"

/-- Numeric strictly-below-zero test, as the pandas comparison
df[col] < 0 evaluates on a numeric column: NaN compares false (the rules catch
it separately with isna) and only numeric cells can compare below zero. -/
def valLtZero : Val → Bool
  | Val.vint n => decide (n < 0)
  | Val.vrat q => decide (q < 0)
  | _ => false

/-- Row of the orders dataset (schema of section 3 of the spec and of
generate_synthetic_data.py). -/
structure OrderRow where
  order_id : Val
  customer_id : Val
  order_created_at : Val
  order_amount : Val
  currency : Val
  order_status : Val
deriving DecidableEq

/-- Row of the order_events dataset. -/
structure EventRow where
  event_id : Val
  order_id : Val
  event_type : Val
  event_timestamp : Val
  source_system : Val
deriving DecidableEq

/-- Helper building an order row; the currency column, which no rule reads,
is fixed. -/
def mkOrder (oid cid created amount status : Val) : OrderRow :=
  { order_id := oid, customer_id := cid, order_created_at := created
    order_amount := amount, currency := Val.vstr ("EUR"), order_status := status }

/-- Helper building an event row; the source_system column, which no rule
reads, is fixed. -/
def mkEvent (eid oid etype ets : Val) : EventRow :=
  { event_id := eid, order_id := oid, event_type := etype
    event_timestamp := ets, source_system := Val.vstr ("web") }

/-- Summary of one data-quality rule run; mirrors the RuleResult dataclass of
dq_rules.py. Counts are naturals (Python lens), the rate is an exact rational. -/
structure RuleResult where
  rule_id : String
  rule_name : String
  table_name : String
  severity : String
  failed_rows : Nat
  total_rows : Nat
  failure_rate : ℚ
  sample_keys : String
deriving DecidableEq

/-- Row of the persisted samples table: the leading rule_id column inserted by
the runner, followed by the projected cell values of the failing row. -/
def SampleRow : Type := String × List Val

instance : DecidableEq SampleRow := instDecidableEqProd

/-- Failure rate exactly as every rule computes it:
(failed / total) if total else 0.0. -/
def failRate (failed total : Nat) : ℚ :=
  if total = 0 then 0 else (failed : ℚ) / (total : ℚ)

/-- First-occurrence deduplication of projected key tuples, mirroring pandas
drop_duplicates (which keeps the first occurrence); the accumulator holds the
tuples already seen. -/
def dedupFirstAux : List (List Val) → List (List Val) → List (List Val)
  | _, [] => []
  | seen, x :: xs =>
      if x ∈ seen then dedupFirstAux seen xs
      else x :: dedupFirstAux (x :: seen) xs

/-- Embedding of sample_keys_from_df of dq_rules.py: empty string for an empty
frame, otherwise up to 5 distinct key tuples, comma-joined inside a tuple and
semicolon-joined across tuples. -/
def sample_keys_from_df {α : Type} (rows : List α) (keys : List (α → Val)) : String :=
  if rows.isEmpty then ""
  else
    String.intercalate ("; ")
      (((dedupFirstAux [] (rows.map (fun r => keys.map (fun k => k r)))).take 5).map
        (fun vs => String.intercalate (",") (vs.map pyStr)))

/-- Embedding of df[df.duplicated(subset=[pk], keep=False)]: the rows whose key
value occurs at least twice in the frame (pandas treats NaN keys as equal, as
does equality on `Val`). -/
def duplicatedKeepFalse {α : Type} (rows : List α) (pk : α → Val) : List α :=
  rows.filter (fun r => decide (2 ≤ (rows.filter (fun x => decide (pk x = pk r))).length))

/-- Embedding of rule_duplicate_pk of dq_rules.py (rules R001/R002); `pkName`
is the column label used in the rule name, `pk` the key projection. -/
def rule_duplicate_pk {α : Type} (df : List α) (table : String) (pkName : String)
    (pk : α → Val) (rule_id : String) (severity : String) : RuleResult × List α :=
  let total := df.length
  let dup := duplicatedKeepFalse df pk
  let failed := dup.length
  ({ rule_id := rule_id
     rule_name := ("Duplicate primary key: ") ++ pkName
     table_name := table
     severity := severity
     failed_rows := failed
     total_rows := total
     failure_rate := failRate failed total
     sample_keys := sample_keys_from_df dup [pk] }, dup)

/-- Embedding of rule_not_null of dq_rules.py (R003/R004): a row fails when any
of the required columns is null. `colNames` are the labels joined into the rule
name; `sampleKey` embeds the sample_key_col choice, which resolves to the
order_id column for both tables the runner passes (order_id is present in
both). -/
def rule_not_null {α : Type} (df : List α) (table : String) (cols : List (α → Val))
    (colNames : List String) (sampleKey : α → Val) (rule_id : String)
    (severity : String) : RuleResult × List α :=
  let total := df.length
  let bad := df.filter (fun r => cols.any (fun c => decide (c r = Val.vnull)))
  let failed := bad.length
  ({ rule_id := rule_id
     rule_name := ("Missing required fields: ") ++ String.intercalate (", ") colNames
     table_name := table
     severity := severity
     failed_rows := failed
     total_rows := total
     failure_rate := failRate failed total
     sample_keys := sample_keys_from_df bad [sampleKey] }, bad)

/-- Embedding of rule_allowed_values of dq_rules.py (R005/R006): a row fails
when the checked cell is not a member of the allowed string enumeration or is
null (pandas isin places neither NaN nor a non-member in the allowed set). -/
def rule_allowed_values {α : Type} (df : List α) (table : String) (col : α → Val)
    (colName : String) (allowed : List String) (sampleKey : α → Val)
    (rule_id : String) (severity : String) : RuleResult × List α :=
  let total := df.length
  let bad := df.filter (fun r =>
    !(decide (col r ∈ allowed.map Val.vstr)) || decide (col r = Val.vnull))
  let failed := bad.length
  ({ rule_id := rule_id
     rule_name := ("Invalid values in ") ++ colName
     table_name := table
     severity := severity
     failed_rows := failed
     total_rows := total
     failure_rate := failRate failed total
     sample_keys := sample_keys_from_df bad [sampleKey] }, bad)

/-- Embedding of rule_amount_non_negative of dq_rules.py (R007): an order fails
when order_amount is null or negative. -/
def rule_amount_non_negative (orders : List OrderRow) (rule_id : String)
    (severity : String) : RuleResult × List OrderRow :=
  let total := orders.length
  let bad := orders.filter (fun o =>
    decide (o.order_amount = Val.vnull) || valLtZero o.order_amount)
  let failed := bad.length
  ({ rule_id := rule_id
     rule_name := "Order amount must be >= 0"
     table_name := "orders"
     severity := severity
     failed_rows := failed
     total_rows := total
     failure_rate := failRate failed total
     sample_keys := sample_keys_from_df bad [fun o => o.order_id] }, bad)

/-- Embedding of the comparison set of rule_orders_without_events:
set(events[order_id].dropna().astype(str).unique()) — null identifiers dropped,
the rest coerced with str(). Uniqueness is irrelevant to membership, so the
set is kept as the coerced list. -/
def event_order_ids (events : List EventRow) : List String :=
  (events.filter (fun e => !(decide (e.order_id = Val.vnull)))).map
    (fun e => pyStr e.order_id)

/-- Embedding of rule_orders_without_events of dq_rules.py (R008): an order
fails when its str()-coerced order_id is not among the non-null coerced event
order_ids. -/
def rule_orders_without_events (orders : List OrderRow) (events : List EventRow)
    (rule_id : String) (severity : String) : RuleResult × List OrderRow :=
  let total := orders.length
  let bad := orders.filter (fun o => decide (pyStr o.order_id ∉ event_order_ids events))
  let failed := bad.length
  ({ rule_id := rule_id
     rule_name := "Orders without any events"
     table_name := "orders"
     severity := severity
     failed_rows := failed
     total_rows := total
     failure_rate := failRate failed total
     sample_keys := sample_keys_from_df bad [fun o => o.order_id] }, bad)

/-- Embedding of the comparison set of rule_events_without_orders:
set(orders[order_id].dropna().astype(str).unique()). -/
def order_ids (orders : List OrderRow) : List String :=
  (orders.filter (fun o => !(decide (o.order_id = Val.vnull)))).map
    (fun o => pyStr o.order_id)

/-- Embedding of rule_events_without_orders of dq_rules.py (R009): an event
fails when its str()-coerced order_id is not among the non-null coerced order
ids of the orders table. -/
def rule_events_without_orders (orders : List OrderRow) (events : List EventRow)
    (rule_id : String) (severity : String) : RuleResult × List EventRow :=
  let total := events.length
  let bad := events.filter (fun e => decide (pyStr e.order_id ∉ order_ids orders))
  let failed := bad.length
  ({ rule_id := rule_id
     rule_name := "Events without matching order"
     table_name := "order_events"
     severity := severity
     failed_rows := failed
     total_rows := total
     failure_rate := failRate failed total
     sample_keys := sample_keys_from_df bad [fun e => e.order_id, fun e => e.event_id] }, bad)

/-- Embedding of the completed frame of rule_completed_without_payment:
orders[orders.order_status == completed][["order_id"]].copy() — the one-column
frame of order ids of completed orders. -/
def completed_order_ids (orders : List OrderRow) : List Val :=
  (orders.filter (fun o => decide (o.order_status = Val.vstr ("completed")))).map
    (fun o => o.order_id)

/-- Embedding of the comparison set of rule_completed_without_payment:
set(events.loc[events.event_type == payment_confirmed, order_id].astype(str)
.unique()). Unlike R008/R009 there is no dropna here: a null order_id of a
payment_confirmed event is coerced to the string nan and joins the set. -/
def paid_orders (events : List EventRow) : List String :=
  (events.filter (fun e => decide (e.event_type = Val.vstr ("payment_confirmed")))).map
    (fun e => pyStr e.order_id)

/-- Embedding of rule_completed_without_payment of dq_rules.py (R010): the
denominator is the completed subset; a completed order fails when its
str()-coerced order_id is not in the paid set. -/
def rule_completed_without_payment (orders : List OrderRow) (events : List EventRow)
    (rule_id : String) (severity : String) : RuleResult × List Val :=
  let completed := completed_order_ids orders
  let total := completed.length
  let bad := completed.filter (fun v => decide (pyStr v ∉ paid_orders events))
  let failed := bad.length
  ({ rule_id := rule_id
     rule_name := "Completed orders missing payment_confirmed event"
     table_name := "orders"
     severity := severity
     failed_rows := failed
     total_rows := total
     failure_rate := failRate failed total
     sample_keys := sample_keys_from_df bad [fun v => v] }, bad)

/-- Embedding of rule_timestamp_parseable of dq_rules.py (R011/R012): a row
fails when the raw cell is null or the timestamp parser coerces it to NaT. -/
def rule_timestamp_parseable {α : Type} (parseTs : Val → Option Int) (df : List α)
    (table : String) (col : α → Val) (colName : String) (keyCols : List (α → Val))
    (rule_id : String) (severity : String) : RuleResult × List α :=
  let total := df.length
  let bad := df.filter (fun r =>
    decide (col r = Val.vnull) || decide (parseTs (col r) = none))
  let failed := bad.length
  ({ rule_id := rule_id
     rule_name := ("Unparseable timestamp in ") ++ colName
     table_name := table
     severity := severity
     failed_rows := failed
     total_rows := total
     failure_rate := failRate failed total
     sample_keys := sample_keys_from_df bad keyCols }, bad)

/-- Embedding of events.merge(orders, on=order_id, how=left): every event row
in order, paired with each matching order row in order, or with `none` when no
order matches (pandas fills the order columns with NaN). Like pandas, equal
null keys match each other. -/
def leftJoin (events : List EventRow) (orders : List OrderRow) :
    List (EventRow × Option OrderRow) :=
  events.flatMap (fun e =>
    let ms := orders.filter (fun o => decide (o.order_id = e.order_id))
    if ms.isEmpty then [(e, none)] else ms.map (fun o => (e, some o)))

/-- Violation mask of rule R013 on one joined row: both the event timestamp and
the matched order creation timestamp parsed (notna) and the event timestamp is
strictly earlier. A join miss leaves the order side NaT, hence false. -/
def r013Flag (parseTs : Val → Option Int) (p : EventRow × Option OrderRow) : Bool :=
  match parseTs p.1.event_timestamp, p.2.bind (fun o => parseTs o.order_created_at) with
  | some et, some ot => decide (et < ot)
  | _, _ => false

/-- Embedding of rule_event_not_before_order_created of dq_rules.py (R013):
timestamps are parsed on working copies, events are left-joined to orders on
order_id, and the failing subset keeps the joined rows whose two timestamps
parsed with the event one strictly earlier. The denominator stays
len(events_raw). -/
def rule_event_not_before_order_created (parseTs : Val → Option Int)
    (orders_raw : List OrderRow) (events_raw : List EventRow) (rule_id : String)
    (severity : String) : RuleResult × List (EventRow × Option OrderRow) :=
  let total := events_raw.length
  let joined := leftJoin events_raw orders_raw
  let bad := joined.filter (r013Flag parseTs)
  let failed := bad.length
  ({ rule_id := rule_id
     rule_name := "Event timestamp earlier than order_created_at"
     table_name := "order_events"
     severity := severity
     failed_rows := failed
     total_rows := total
     failure_rate := failRate failed total
     sample_keys := sample_keys_from_df bad
       [fun p => p.1.order_id, fun p => p.1.event_id] }, bad)

/-- Allowed event types of dq_runner.py. -/
def ALLOWED_EVENT_TYPES : List String :=
  ["order_created", "payment_confirmed", "order_shipped", "order_cancelled"]

/-- Allowed order statuses of dq_runner.py. -/
def ALLOWED_ORDER_STATUS : List String :=
  ["completed", "cancelled", "refunded"]

/-- Embedding of the add helper of run_quality_checks: when the failing frame
is non-empty, project the rule-specific sample columns of its first 50 rows and
insert the rule_id as leading column; an empty failing frame contributes no
sample block. -/
def mkSample {α : Type} (rule_id : String) (bad : List α) (cols : List (α → Val)) :
    List SampleRow :=
  if bad.isEmpty then []
  else (bad.take 50).map (fun r => ((rule_id, cols.map (fun c => c r)) : SampleRow))

/-- Embedding of run_quality_checks of dq_runner.py: the thirteen catalog rules
in source order; the report collects the thirteen summaries in order and the
samples table concatenates the per-rule sample blocks (pd.concat of the
appended frames). -/
def run_quality_checks (parseTs : Val → Option Int) (orders_raw : List OrderRow)
    (events_raw : List EventRow) : List RuleResult × List SampleRow :=
  let p1 := rule_duplicate_pk events_raw ("order_events") ("event_id")
    (fun e => e.event_id) ("R001") ("critical")
  let s1 := mkSample ("R001") p1.2
    [fun e => e.event_id, fun e => e.order_id, fun e => e.event_type,
     fun e => e.event_timestamp]
  let p2 := rule_duplicate_pk orders_raw ("orders") ("order_id")
    (fun o => o.order_id) ("R002") ("critical")
  let s2 := mkSample ("R002") p2.2
    [fun o => o.order_id, fun o => o.customer_id, fun o => o.order_status,
     fun o => o.order_amount]
  let p3 := rule_not_null events_raw ("order_events")
    [fun e => e.event_id, fun e => e.order_id, fun e => e.event_type,
     fun e => e.event_timestamp]
    ["event_id", "order_id", "event_type", "event_timestamp"]
    (fun e => e.order_id) ("R003") ("critical")
  let s3 := mkSample ("R003") p3.2
    [fun e => e.event_id, fun e => e.order_id, fun e => e.event_type,
     fun e => e.event_timestamp]
  let p4 := rule_not_null orders_raw ("orders")
    [fun o => o.order_id, fun o => o.customer_id, fun o => o.order_created_at,
     fun o => o.order_amount, fun o => o.order_status]
    ["order_id", "customer_id", "order_created_at", "order_amount", "order_status"]
    (fun o => o.order_id) ("R004") ("critical")
  let s4 := mkSample ("R004") p4.2
    [fun o => o.order_id, fun o => o.customer_id, fun o => o.order_created_at,
     fun o => o.order_amount, fun o => o.order_status]
  let p5 := rule_allowed_values events_raw ("order_events") (fun e => e.event_type)
    ("event_type") ALLOWED_EVENT_TYPES (fun e => e.order_id) ("R005") ("warning")
  let s5 := mkSample ("R005") p5.2
    [fun e => e.event_id, fun e => e.order_id, fun e => e.event_type]
  let p6 := rule_allowed_values orders_raw ("orders") (fun o => o.order_status)
    ("order_status") ALLOWED_ORDER_STATUS (fun o => o.order_id) ("R006") ("warning")
  let s6 := mkSample ("R006") p6.2
    [fun o => o.order_id, fun o => o.order_status]
  let p7 := rule_amount_non_negative orders_raw ("R007") ("warning")
  let s7 := mkSample ("R007") p7.2
    [fun o => o.order_id, fun o => o.order_amount, fun o => o.order_status]
  let p8 := rule_orders_without_events orders_raw events_raw ("R008") ("warning")
  let s8 := mkSample ("R008") p8.2
    [fun o => o.order_id, fun o => o.order_status, fun o => o.order_created_at]
  let p9 := rule_events_without_orders orders_raw events_raw ("R009") ("warning")
  let s9 := mkSample ("R009") p9.2
    [fun e => e.event_id, fun e => e.order_id, fun e => e.event_type,
     fun e => e.event_timestamp]
  let p10 := rule_completed_without_payment orders_raw events_raw ("R010") ("warning")
  let s10 := mkSample ("R010") p10.2 [fun v => v]
  let p11 := rule_timestamp_parseable parseTs orders_raw ("orders")
    (fun o => o.order_created_at) ("order_created_at") [fun o => o.order_id]
    ("R011") ("critical")
  let s11 := mkSample ("R011") p11.2
    [fun o => o.order_id, fun o => o.order_created_at]
  let p12 := rule_timestamp_parseable parseTs events_raw ("order_events")
    (fun e => e.event_timestamp) ("event_timestamp")
    [fun e => e.order_id, fun e => e.event_id] ("R012") ("critical")
  let s12 := mkSample ("R012") p12.2
    [fun e => e.event_id, fun e => e.order_id, fun e => e.event_timestamp]
  let p13 := rule_event_not_before_order_created parseTs orders_raw events_raw
    ("R013") ("warning")
  let s13 := mkSample ("R013") p13.2
    [fun p => p.1.event_id, fun p => p.1.order_id, fun p => p.1.event_type,
     fun p => p.1.event_timestamp]
  ([p1.1, p2.1, p3.1, p4.1, p5.1, p6.1, p7.1, p8.1, p9.1, p10.1, p11.1, p12.1, p13.1],
   List.flatten [s1, s2, s3, s4, s5, s6, s7, s8, s9, s10, s11, s12, s13])

/-- Per-rule sample blocks of the runner, paired with the rule id each block
is tagged with; the samples table of run_quality_checks is the flattening of
the second components. -/
def catalogSampleBlocks (parseTs : Val → Option Int) (orders_raw : List OrderRow)
    (events_raw : List EventRow) : List (String × List SampleRow) :=
  [(("R001"), mkSample ("R001")
      (rule_duplicate_pk events_raw ("order_events") ("event_id")
        (fun e => e.event_id) ("R001") ("critical")).2
      [fun e => e.event_id, fun e => e.order_id, fun e => e.event_type,
       fun e => e.event_timestamp]),
   (("R002"), mkSample ("R002")
      (rule_duplicate_pk orders_raw ("orders") ("order_id")
        (fun o => o.order_id) ("R002") ("critical")).2
      [fun o => o.order_id, fun o => o.customer_id, fun o => o.order_status,
       fun o => o.order_amount]),
   (("R003"), mkSample ("R003")
      (rule_not_null events_raw ("order_events")
        [fun e => e.event_id, fun e => e.order_id, fun e => e.event_type,
         fun e => e.event_timestamp]
        ["event_id", "order_id", "event_type", "event_timestamp"]
        (fun e => e.order_id) ("R003") ("critical")).2
      [fun e => e.event_id, fun e => e.order_id, fun e => e.event_type,
       fun e => e.event_timestamp]),
   (("R004"), mkSample ("R004")
      (rule_not_null orders_raw ("orders")
        [fun o => o.order_id, fun o => o.customer_id, fun o => o.order_created_at,
         fun o => o.order_amount, fun o => o.order_status]
        ["order_id", "customer_id", "order_created_at", "order_amount", "order_status"]
        (fun o => o.order_id) ("R004") ("critical")).2
      [fun o => o.order_id, fun o => o.customer_id, fun o => o.order_created_at,
       fun o => o.order_amount, fun o => o.order_status]),
   (("R005"), mkSample ("R005")
      (rule_allowed_values events_raw ("order_events") (fun e => e.event_type)
        ("event_type") ALLOWED_EVENT_TYPES (fun e => e.order_id)
        ("R005") ("warning")).2
      [fun e => e.event_id, fun e => e.order_id, fun e => e.event_type]),
   (("R006"), mkSample ("R006")
      (rule_allowed_values orders_raw ("orders") (fun o => o.order_status)
        ("order_status") ALLOWED_ORDER_STATUS (fun o => o.order_id)
        ("R006") ("warning")).2
      [fun o => o.order_id, fun o => o.order_status]),
   (("R007"), mkSample ("R007")
      (rule_amount_non_negative orders_raw ("R007") ("warning")).2
      [fun o => o.order_id, fun o => o.order_amount, fun o => o.order_status]),
   (("R008"), mkSample ("R008")
      (rule_orders_without_events orders_raw events_raw ("R008") ("warning")).2
      [fun o => o.order_id, fun o => o.order_status, fun o => o.order_created_at]),
   (("R009"), mkSample ("R009")
      (rule_events_without_orders orders_raw events_raw ("R009") ("warning")).2
      [fun e => e.event_id, fun e => e.order_id, fun e => e.event_type,
       fun e => e.event_timestamp]),
   (("R010"), mkSample ("R010")
      (rule_completed_without_payment orders_raw events_raw ("R010") ("warning")).2
      [fun v => v]),
   (("R011"), mkSample ("R011")
      (rule_timestamp_parseable parseTs orders_raw ("orders")
        (fun o => o.order_created_at) ("order_created_at") [fun o => o.order_id]
        ("R011") ("critical")).2
      [fun o => o.order_id, fun o => o.order_created_at]),
   (("R012"), mkSample ("R012")
      (rule_timestamp_parseable parseTs events_raw ("order_events")
        (fun e => e.event_timestamp) ("event_timestamp")
        [fun e => e.order_id, fun e => e.event_id] ("R012") ("critical")).2
      [fun e => e.event_id, fun e => e.order_id, fun e => e.event_timestamp]),
   (("R013"), mkSample ("R013")
      (rule_event_not_before_order_created parseTs orders_raw events_raw
        ("R013") ("warning")).2
      [fun p => p.1.event_id, fun p => p.1.order_id, fun p => p.1.event_type,
       fun p => p.1.event_timestamp])]

/-- Heap object: one pandas object materialized during a runner call. The
constructors cover the frame shapes the runner manipulates: raw order and
event frames, one-column id frames, copies carrying a parsed timestamp
column, the R013 joined frame, an untagged sample projection, a tagged sample
frame after the rule_id insert, and the report frame. -/
inductive Obj where
  | oF : List OrderRow → Obj
  | eF : List EventRow → Obj
  | vF : List Val → Obj
  | opF : List (OrderRow × Option Int) → Obj
  | epF : List (EventRow × Option Int) → Obj
  | jF : List ((EventRow × Option Int) × Option (OrderRow × Option Int)) → Obj
  | sRaw : List (List Val) → Obj
  | sTag : List SampleRow → Obj
  | rF : List RuleResult → Obj

/-- Heap of pandas objects; a reference is an index into it. The two
caller-supplied inputs live at indices 0 (orders) and 1 (events). -/
abbrev Heap : Type := List Obj

/-- Allocation of a fresh object: append it and return its reference. -/
def hAlloc (h : Heap) (o : Obj) : Heap × Nat := (h ++ [o], h.length)

/-- In-place mutation of the object at a reference. -/
def hWrite (h : Heap) (i : Nat) (o : Obj) : Heap := h.set i o

/-- Read of an orders frame at a reference. -/
def hReadO (h : Heap) (i : Nat) : List OrderRow :=
  match h[i]? with
  | some (Obj.oF l) => l
  | _ => []

/-- Read of an events frame at a reference. -/
def hReadE (h : Heap) (i : Nat) : List EventRow :=
  match h[i]? with
  | some (Obj.eF l) => l
  | _ => []

/-- Heap effect of the add helper of run_quality_checks: when the failing
frame is non-empty, bad_df[cols].head(50).copy() allocates a fresh sample
frame, and sample.insert(0, rule_id, ...) mutates that fresh frame in place;
an empty failing frame allocates nothing. -/
def sampleStep {α : Type} (h : Heap) (rule_id : String) (bad : List α)
    (cols : List (α → Val)) : Heap :=
  if bad.isEmpty then h
  else
    let p := hAlloc h (Obj.sRaw ((bad.take 50).map (fun r => cols.map (fun c => c r))))
    hWrite p.1 p.2 (Obj.sTag (mkSample rule_id bad cols))

/-- Heap effect of rule_event_not_before_order_created: the two column
projections with .copy() allocate fresh frames of the inputs (the column
narrowing is abstracted to full rows), the two parsed-column assignments
mutate those copies in place, and the merge and the boolean-mask .copy()
allocate the joined and failing frames. -/
def rule_event_not_before_order_created_h (parseTs : Val → Option Int)
    (h : Heap) : Heap :=
  let ordersRaw := hReadO h 0
  let eventsRaw := hReadE h 1
  let p1 := hAlloc h (Obj.oF ordersRaw)
  let p2 := hAlloc p1.1 (Obj.eF eventsRaw)
  let h2 := hWrite p2.1 p1.2
    (Obj.opF (ordersRaw.map (fun o => (o, parseTs o.order_created_at))))
  let h3 := hWrite h2 p2.2
    (Obj.epF (eventsRaw.map (fun e => (e, parseTs e.event_timestamp))))
  let joined := (eventsRaw.map (fun e => (e, parseTs e.event_timestamp))).flatMap
    (fun ep =>
      let ms := (ordersRaw.map (fun o => (o, parseTs o.order_created_at))).filter
        (fun op => decide (op.1.order_id = ep.1.order_id))
      if ms.isEmpty then [(ep, none)] else ms.map (fun op => (ep, some op)))
  let p3 := hAlloc h3 (Obj.jF joined)
  let p4 := hAlloc p3.1 (Obj.jF (joined.filter (fun pr =>
    match pr.2.bind (fun op => op.2), pr.1.2 with
    | some ot, some et => decide (et < ot)
    | _, _ => false)))
  p4.1

/-- Heap-level embedding of run_quality_checks: the same thirteen rules in
source order against the inputs at references 0 and 1, with every pandas
allocation (boolean-mask frames, projection copies, the report and samples
frames) and every in-place mutation (parsed columns of R013 copies, the
rule_id insert on sample frames) made explicit. The returned heap is the
final object state of one runner call. -/
def run_quality_checks_h (parseTs : Val → Option Int) (orders0 : List OrderRow)
    (events0 : List EventRow) : Heap :=
  let h0 : Heap := [Obj.oF orders0, Obj.eF events0]
  let b1 := (rule_duplicate_pk (hReadE h0 1) ("order_events") ("event_id")
    (fun e => e.event_id) ("R001") ("critical")).2
  let h1 := (hAlloc h0 (Obj.eF b1)).1
  let g1 := sampleStep h1 ("R001") b1
    [fun e => e.event_id, fun e => e.order_id, fun e => e.event_type,
     fun e => e.event_timestamp]
  let b2 := (rule_duplicate_pk (hReadO g1 0) ("orders") ("order_id")
    (fun o => o.order_id) ("R002") ("critical")).2
  let h2 := (hAlloc g1 (Obj.oF b2)).1
  let g2 := sampleStep h2 ("R002") b2
    [fun o => o.order_id, fun o => o.customer_id, fun o => o.order_status,
     fun o => o.order_amount]
  let b3 := (rule_not_null (hReadE g2 1) ("order_events")
    [fun e => e.event_id, fun e => e.order_id, fun e => e.event_type,
     fun e => e.event_timestamp]
    ["event_id", "order_id", "event_type", "event_timestamp"]
    (fun e => e.order_id) ("R003") ("critical")).2
  let h3 := (hAlloc g2 (Obj.eF b3)).1
  let g3 := sampleStep h3 ("R003") b3
    [fun e => e.event_id, fun e => e.order_id, fun e => e.event_type,
     fun e => e.event_timestamp]
  let b4 := (rule_not_null (hReadO g3 0) ("orders")
    [fun o => o.order_id, fun o => o.customer_id, fun o => o.order_created_at,
     fun o => o.order_amount, fun o => o.order_status]
    ["order_id", "customer_id", "order_created_at", "order_amount", "order_status"]
    (fun o => o.order_id) ("R004") ("critical")).2
  let h4 := (hAlloc g3 (Obj.oF b4)).1
  let g4 := sampleStep h4 ("R004") b4
    [fun o => o.order_id, fun o => o.customer_id, fun o => o.order_created_at,
     fun o => o.order_amount, fun o => o.order_status]
  let b5 := (rule_allowed_values (hReadE g4 1) ("order_events")
    (fun e => e.event_type) ("event_type") ALLOWED_EVENT_TYPES
    (fun e => e.order_id) ("R005") ("warning")).2
  let h5 := (hAlloc g4 (Obj.eF b5)).1
  let g5 := sampleStep h5 ("R005") b5
    [fun e => e.event_id, fun e => e.order_id, fun e => e.event_type]
  let b6 := (rule_allowed_values (hReadO g5 0) ("orders")
    (fun o => o.order_status) ("order_status") ALLOWED_ORDER_STATUS
    (fun o => o.order_id) ("R006") ("warning")).2
  let h6 := (hAlloc g5 (Obj.oF b6)).1
  let g6 := sampleStep h6 ("R006") b6
    [fun o => o.order_id, fun o => o.order_status]
  let b7 := (rule_amount_non_negative (hReadO g6 0) ("R007") ("warning")).2
  let h7 := (hAlloc g6 (Obj.oF b7)).1
  let g7 := sampleStep h7 ("R007") b7
    [fun o => o.order_id, fun o => o.order_amount, fun o => o.order_status]
  let b8 := (rule_orders_without_events (hReadO g7 0) (hReadE g7 1)
    ("R008") ("warning")).2
  let h8 := (hAlloc g7 (Obj.oF b8)).1
  let g8 := sampleStep h8 ("R008") b8
    [fun o => o.order_id, fun o => o.order_status, fun o => o.order_created_at]
  let b9 := (rule_events_without_orders (hReadO g8 0) (hReadE g8 1)
    ("R009") ("warning")).2
  let h9 := (hAlloc g8 (Obj.eF b9)).1
  let g9 := sampleStep h9 ("R009") b9
    [fun e => e.event_id, fun e => e.order_id, fun e => e.event_type,
     fun e => e.event_timestamp]
  let h10c := (hAlloc g9 (Obj.vF (completed_order_ids (hReadO g9 0)))).1
  let b10 := (rule_completed_without_payment (hReadO h10c 0) (hReadE h10c 1)
    ("R010") ("warning")).2
  let h10 := (hAlloc h10c (Obj.vF b10)).1
  let g10 := sampleStep h10 ("R010") b10 [fun v => v]
  let b11 := (rule_timestamp_parseable parseTs (hReadO g10 0) ("orders")
    (fun o => o.order_created_at) ("order_created_at") [fun o => o.order_id]
    ("R011") ("critical")).2
  let h11 := (hAlloc g10 (Obj.oF b11)).1
  let g11 := sampleStep h11 ("R011") b11
    [fun o => o.order_id, fun o => o.order_created_at]
  let b12 := (rule_timestamp_parseable parseTs (hReadE g11 1) ("order_events")
    (fun e => e.event_timestamp) ("event_timestamp")
    [fun e => e.order_id, fun e => e.event_id] ("R012") ("critical")).2
  let h12 := (hAlloc g11 (Obj.eF b12)).1
  let g12 := sampleStep h12 ("R012") b12
    [fun e => e.event_id, fun e => e.order_id, fun e => e.event_timestamp]
  let h13 := rule_event_not_before_order_created_h parseTs g12
  let b13 := (rule_event_not_before_order_created parseTs (hReadO h13 0)
    (hReadE h13 1) ("R013") ("warning")).2
  let g13 := sampleStep h13 ("R013") b13
    [fun p => p.1.event_id, fun p => p.1.order_id, fun p => p.1.event_type,
     fun p => p.1.event_timestamp]
  let h14 := (hAlloc g13 (Obj.rF
    (run_quality_checks parseTs (hReadO g13 0) (hReadE g13 1)).1)).1
  (hAlloc h14 (Obj.sTag
    (run_quality_checks parseTs (hReadO h14 0) (hReadE h14 1)).2)).1

/-- Input-preservation invariant on a runner heap: the caller-supplied frames
still sit unchanged at references 0 and 1, and those two references exist. -/
def HeapPres (orders0 : List OrderRow) (events0 : List EventRow) (h : Heap) : Prop :=
  h[0]? = some (Obj.oF orders0) ∧ h[1]? = some (Obj.eF events0) ∧ 2 ≤ h.length

/-- Embedding of should_fail_run_in_prod of ingest.py: empty report never
fails; otherwise the run fails exactly when the frame filtered to rows with
severity critical and failed_rows greater than 0 is non-empty. -/
def should_fail_run_in_prod (report : List RuleResult) : Bool :=
  if report.isEmpty then false
  else
    decide (0 < (report.filter
      (fun r => decide (r.severity = "critical") && decide (0 < r.failed_rows))).length)

/-- Concrete timestamp parser used by executable examples: an integer cell is
its own instant, everything else (strings, rationals, null) is unparseable.
It satisfies the NaT-on-null property of pd.to_datetime. -/
def cparse : Val → Option Int
  | Val.vint n => some n
  | _ => none

/-- Events dataset with keys A, A, B used by the duplicate-key example: the
two rows sharing key A differ in their other fields, so flagging both shows
the rule marks every occurrence, not only later ones. -/
def c3Events : List EventRow :=
  [{ event_id := Val.vstr ("A"), order_id := Val.vint 1
     event_type := Val.vstr ("order_created"), event_timestamp := Val.vint 1
     source_system := Val.vstr ("web") },
   { event_id := Val.vstr ("A"), order_id := Val.vint 2
     event_type := Val.vstr ("order_shipped"), event_timestamp := Val.vint 2
     source_system := Val.vstr ("web") },
   { event_id := Val.vstr ("B"), order_id := Val.vint 3
     event_type := Val.vstr ("order_created"), event_timestamp := Val.vint 3
     source_system := Val.vstr ("web") }]

/-- Two completed orders for the R010 example; the order ids are integers
while the matching event carries the id as a string, exercising the str()
coercion. -/
def c4Orders : List OrderRow :=
  [mkOrder (Val.vint 1) (Val.vstr ("c1")) (Val.vint 1) (Val.vint 10)
    (Val.vstr ("completed")),
   mkOrder (Val.vint 2) (Val.vstr ("c2")) (Val.vint 2) (Val.vint 20)
    (Val.vstr ("completed"))]

/-- Single payment_confirmed event for order 1 in the R010 example. -/
def c4Events : List EventRow :=
  [mkEvent (Val.vstr ("E1")) (Val.vstr ("1")) (Val.vstr ("payment_confirmed"))
    (Val.vint 5)]

/-- Order created at instant 5 for the R013 example. -/
def c5o1 : OrderRow :=
  mkOrder (Val.vint 1) (Val.vstr ("c1")) (Val.vint 5) (Val.vint 10)
    (Val.vstr ("completed"))

/-- Event at instant 3, earlier than the creation of its order, for the R013
example. -/
def c5e1 : EventRow :=
  mkEvent (Val.vstr ("E1")) (Val.vint 1) (Val.vstr ("payment_confirmed"))
    (Val.vint 3)

/-- Two orders that share the order_id 1 (a duplicated key): the R013 left
join then duplicates every matching event row. -/
def c2DupOrders : List OrderRow :=
  [mkOrder (Val.vstr ("1")) (Val.vstr ("c1")) (Val.vint 5) (Val.vint 10)
    (Val.vstr ("completed")),
   mkOrder (Val.vstr ("1")) (Val.vstr ("c2")) (Val.vint 5) (Val.vint 10)
    (Val.vstr ("completed"))]

/-- Single event at instant 3 for order 1, earlier than both duplicated order
creations at instant 5. -/
def c2Events : List EventRow :=
  [mkEvent (Val.vstr ("E1")) (Val.vstr ("1")) (Val.vstr ("payment_confirmed"))
    (Val.vint 3)]

/-- Order whose id is the upper-case string A. -/
def c6OrderA : OrderRow :=
  mkOrder (Val.vstr ("A")) (Val.vstr ("c1")) (Val.vint 1) (Val.vint 10)
    (Val.vstr ("completed"))

/-- Event whose order id is the lower-case string a, differing from the order
id A only in case. -/
def c6EventLower : EventRow :=
  mkEvent (Val.vstr ("E1")) (Val.vstr ("a")) (Val.vstr ("order_created"))
    (Val.vint 2)

/-- Completed order with a null order id. -/
def c6OrderNull : OrderRow :=
  mkOrder Val.vnull (Val.vstr ("c1")) (Val.vint 1) (Val.vint 10)
    (Val.vstr ("completed"))

/-- Payment-confirmed event with a null order id. -/
def c6EventNullPay : EventRow :=
  mkEvent (Val.vstr ("E2")) Val.vnull (Val.vstr ("payment_confirmed"))
    (Val.vint 2)

/-- Completed order with the integer id 7. -/
def c6OrderInt : OrderRow :=
  mkOrder (Val.vint 7) (Val.vstr ("c1")) (Val.vint 1) (Val.vint 10)
    (Val.vstr ("completed"))

/-- Event whose order id is the string 7, matching the integer order id 7
after str() coercion. -/
def c6EventStr : EventRow :=
  mkEvent (Val.vstr ("E9")) (Val.vstr ("7")) (Val.vstr ("payment_confirmed"))
    (Val.vint 9)

/-- Event row repeated 200 times to exercise the sample cap. -/
def c7DupEvent : EventRow :=
  mkEvent (Val.vstr ("E")) (Val.vstr ("1")) (Val.vstr ("order_created"))
    (Val.vint 5)

/-- Events dataset with 200 identical rows: every row shares the event id E,
so R001 reports 200 failures while the persisted sample is capped at 50. -/
def c7Events : List EventRow := List.replicate 200 c7DupEvent

/-- Order passing every rule of the catalog (with the concrete parser). -/
def c7GoodOrder : OrderRow :=
  mkOrder (Val.vstr ("1")) (Val.vstr ("c1")) (Val.vint 1) (Val.vint 10)
    (Val.vstr ("completed"))

/-- Event passing every rule of the catalog, matching the good order. -/
def c7GoodEvent : EventRow :=
  mkEvent (Val.vstr ("E1")) (Val.vstr ("1")) (Val.vstr ("payment_confirmed"))
    (Val.vint 2)

/-- Sample report rows used to exercise the Run Gate at concrete inputs. -/
def gateCritRow : RuleResult :=
  { rule_id := "R001", rule_name := "r", table_name := "t", severity := "critical"
    failed_rows := 1, total_rows := 1, failure_rate := 1, sample_keys := "" }

/-- Warning row with a large failure count, which must not trip the gate. -/
def gateWarnRow : RuleResult :=
  { rule_id := "R005", rule_name := "r", table_name := "t", severity := "warning"
    failed_rows := 100, total_rows := 100, failure_rate := 1, sample_keys := "" }

/-- Filtering with a stronger predicate keeps at most as many rows. -/
theorem length_filter_mono {α : Type} {p q : α → Bool} :
    ∀ l : List α, (∀ a ∈ l, p a = true → q a = true) →
      (l.filter p).length ≤ (l.filter q).length := by
  intro l
  induction l with
  | nil => intro _; simp
  | cons a t ih =>
    intro h
    rw [List.filter_cons, List.filter_cons]
    have hrec := ih (fun x hx hpx => h x (List.mem_cons_of_mem a hx) hpx)
    by_cases hp : p a = true
    · rw [if_pos hp, if_pos (h a (List.mem_cons_self a t) hp)]
      simpa using hrec
    · rw [if_neg hp]
      by_cases hq : q a = true
      · rw [if_pos hq]
        exact le_trans hrec (by simp)
      · rw [if_neg hq]
        exact hrec

/-- Membership in the duplicated-keys frame: the row is in the input and its
key value occurs at least twice there. -/
theorem mem_duplicatedKeepFalse {α : Type} (df : List α) (pk : α → Val) (r : α) :
    r ∈ duplicatedKeepFalse df pk ↔
      r ∈ df ∧ 2 ≤ (df.filter (fun x => decide (pk x = pk r))).length := by
  simp [duplicatedKeepFalse, List.mem_filter]

/-- Claim C1: the Run Gate returns false for an empty report; for a non-empty
report it returns true iff at least one row has severity critical and
failed_rows strictly greater than 0; rows whose severity is not critical
(for example warning) never cause failure regardless of failed_rows. -/
theorem c1_run_gate :
    should_fail_run_in_prod [] = false ∧
    (∀ report : List RuleResult, report ≠ [] →
      (should_fail_run_in_prod report = true ↔
        ∃ r ∈ report, r.severity = "critical" ∧ 0 < r.failed_rows)) ∧
    (∀ report : List RuleResult, (∀ r ∈ report, r.severity ≠ "critical") →
      should_fail_run_in_prod report = false) := by
  refine ⟨rfl, ?_, ?_⟩
  · intro report hne
    simp only [should_fail_run_in_prod, List.isEmpty_iff, hne, if_false]
    rw [decide_eq_true_eq, List.length_pos_iff_ne_nil, ne_eq, List.filter_eq_nil_iff]
    constructor
    · intro h
      by_contra hno
      push_neg at hno
      exact h (fun r hr => by
        simp only [Bool.and_eq_true, decide_eq_true_eq, not_and]
        intro hs hf
        exact absurd hf (by simpa using (hno r hr hs).not_lt))
    · rintro ⟨r, hr, hs, hf⟩ h
      have := h r hr
      simp only [Bool.and_eq_true, decide_eq_true_eq, not_and] at this
      exact absurd hf (by simpa using this hs)
  · intro report hwarn
    simp only [should_fail_run_in_prod]
    by_cases he : report.isEmpty
    · simp [he]
    · rw [if_neg he, decide_eq_false_iff_not]
      intro hpos
      rw [List.length_pos_iff_ne_nil, ne_eq, List.filter_eq_nil_iff] at hpos
      apply hpos
      intro r hr
      simp only [Bool.and_eq_true, decide_eq_true_eq, not_and]
      intro hs
      exact absurd hs (hwarn r hr)

/-- Witness for C1: the gate fires on one critical row with a failure and stays
silent on a warning row with 100 failures. -/
theorem c1_run_gate_witness :
    should_fail_run_in_prod [gateCritRow] = true ∧
    should_fail_run_in_prod [gateWarnRow] = false := by
  constructor
  · exact (c1_run_gate.2.1 [gateCritRow] (by decide)).2
      ⟨gateCritRow, by simp, by decide, by decide⟩
  · exact c1_run_gate.2.2 [gateWarnRow] (by
      intro r hr
      simp only [List.mem_singleton] at hr
      subst hr
      decide)

/-- Claim C3: the duplicate-primary-key rule flags every row whose key value
occurs more than once (membership in the failing subset is equivalent to the
key occurring at least twice in the table), and on a table whose keys are
A, A, B it reports failed_rows = 2 — both A rows, not just the second. -/
theorem c3_duplicate_pk_flags_all :
    (∀ (α : Type) (df : List α) (table pkName : String) (pk : α → Val)
      (rid sev : String) (r : α),
      r ∈ (rule_duplicate_pk df table pkName pk rid sev).2 ↔
        r ∈ df ∧ 2 ≤ (df.filter (fun x => decide (pk x = pk r))).length) ∧
    (rule_duplicate_pk c3Events ("order_events") ("event_id")
      (fun e => e.event_id) ("R001") ("critical")).1.failed_rows = 2 := by
  constructor
  · intro α df table pkName pk rid sev r
    exact mem_duplicatedKeepFalse df pk r
  · decide

/-- Claim C10: the duplicate-primary-key rule never reports exactly one failed
row — any flagged row has a key shared by at least two rows, and all of those
rows are flagged with it. -/
theorem c10_duplicate_pk_failed_ne_one {α : Type} (df : List α)
    (table pkName : String) (pk : α → Val) (rid sev : String) :
    (rule_duplicate_pk df table pkName pk rid sev).1.failed_rows ≠ 1 := by
  have hfe : (rule_duplicate_pk df table pkName pk rid sev).1.failed_rows =
      (duplicatedKeepFalse df pk).length := rfl
  rw [hfe]
  intro h1
  obtain ⟨r, hr⟩ := List.length_eq_one.mp h1
  have hrmem : r ∈ duplicatedKeepFalse df pk := by
    rw [hr]
    exact List.mem_singleton_self r
  have hc := (mem_duplicatedKeepFalse df pk r).1 hrmem
  have hmono : (df.filter (fun x => decide (pk x = pk r))).length ≤
      (duplicatedKeepFalse df pk).length := by
    unfold duplicatedKeepFalse
    apply length_filter_mono
    intro a _ hpa
    rw [decide_eq_true_eq] at hpa
    rw [decide_eq_true_eq]
    have hfun : (fun x => decide (pk x = pk a)) = (fun x => decide (pk x = pk r)) := by
      funext x
      rw [hpa]
    rw [hfun]
    exact hc.2
  have h2 := hc.2
  omega

/-- Claim C4: R010 counts only completed orders in its denominator and flags
exactly the completed orders with no payment_confirmed event whose coerced
order_id matches; on the two completed orders with one payment for order 1 it
reports total_rows = 2 and failed_rows = 1. -/
theorem c4_completed_without_payment :
    (∀ (orders : List OrderRow) (events : List EventRow) (rid sev : String),
      (rule_completed_without_payment orders events rid sev).1.total_rows =
        (orders.filter (fun o => decide (o.order_status = Val.vstr ("completed")))).length ∧
      ∀ v : Val, v ∈ (rule_completed_without_payment orders events rid sev).2 ↔
        (v ∈ completed_order_ids orders ∧
          ¬ ∃ e ∈ events, e.event_type = Val.vstr ("payment_confirmed") ∧
            pyStr e.order_id = pyStr v)) ∧
    ((rule_completed_without_payment c4Orders c4Events ("R010") ("warning")).1.total_rows = 2 ∧
     (rule_completed_without_payment c4Orders c4Events ("R010") ("warning")).1.failed_rows = 1) := by
  refine ⟨?_, by decide, by decide⟩
  intro orders events rid sev
  constructor
  · show (completed_order_ids orders).length = _
    rw [completed_order_ids, List.length_map]
  · intro v
    show v ∈ (completed_order_ids orders).filter
        (fun v => decide (pyStr v ∉ paid_orders events)) ↔ _
    rw [List.mem_filter, decide_eq_true_eq]
    constructor
    · rintro ⟨hm, hnp⟩
      refine ⟨hm, ?_⟩
      rintro ⟨e, he, htype, hid⟩
      apply hnp
      simp only [paid_orders, List.mem_map, List.mem_filter, decide_eq_true_eq]
      exact ⟨e, ⟨he, htype⟩, hid⟩
    · rintro ⟨hm, hnp⟩
      refine ⟨hm, ?_⟩
      intro hin
      rw [paid_orders] at hin
      obtain ⟨e, hef, heq⟩ := List.mem_map.mp hin
      rw [List.mem_filter, decide_eq_true_eq] at hef
      exact hnp ⟨e, hef.1, hef.2, heq⟩

/-- Characterization of the R013 violation mask: it is true exactly when both
timestamps parsed and the event instant is strictly earlier. -/
theorem r013Flag_iff (parseTs : Val → Option Int) (p : EventRow × Option OrderRow) :
    r013Flag parseTs p = true ↔
      ∃ et ot, parseTs p.1.event_timestamp = some et ∧
        (p.2.bind (fun o => parseTs o.order_created_at)) = some ot ∧ et < ot := by
  unfold r013Flag
  rcases h1 : parseTs p.1.event_timestamp with _ | et <;>
    rcases h2 : p.2.bind (fun o => parseTs o.order_created_at) with _ | ot <;>
    simp [h1, h2]

/-- Claim C5: R013 flags a joined row iff both its event timestamp and the
matched order creation timestamp parse and the event one is strictly earlier;
consequently a flagged row always has a matched order and non-null raw
timestamps on both sides (given the NaT-on-null property of the parser), so
join misses and missing or unparseable timestamps are never flagged. -/
theorem c5_r013_flagging (parseTs : Val → Option Int)
    (hnull : parseTs Val.vnull = none) (orders : List OrderRow)
    (events : List EventRow) (rid sev : String) :
    (∀ p : EventRow × Option OrderRow,
      p ∈ (rule_event_not_before_order_created parseTs orders events rid sev).2 ↔
        (p ∈ leftJoin events orders ∧
          ∃ et ot, parseTs p.1.event_timestamp = some et ∧
            (p.2.bind (fun o => parseTs o.order_created_at)) = some ot ∧ et < ot)) ∧
    (∀ p ∈ (rule_event_not_before_order_created parseTs orders events rid sev).2,
      p.2 ≠ none ∧ p.1.event_timestamp ≠ Val.vnull ∧
        ∀ o : OrderRow, p.2 = some o → o.order_created_at ≠ Val.vnull) := by
  have hbad : (rule_event_not_before_order_created parseTs orders events rid sev).2 =
      (leftJoin events orders).filter (r013Flag parseTs) := rfl
  constructor
  · intro p
    rw [hbad, List.mem_filter, r013Flag_iff]
  · intro p hp
    rw [hbad, List.mem_filter, r013Flag_iff] at hp
    obtain ⟨-, et, ot, he, ho, -⟩ := hp
    refine ⟨?_, ?_, ?_⟩
    · intro hnone
      rw [hnone] at ho
      exact Option.noConfusion ho
    · intro hts
      rw [hts, hnull] at he
      exact Option.noConfusion he
    · intro o hpo hoc
      rw [hpo] at ho
      rw [Option.some_bind] at ho
      rw [hoc, hnull] at ho
      exact Option.noConfusion ho

/-- Witness for C5: with the concrete parser, the event at instant 3 joined to
its order created at instant 5 is flagged, and the flagged row indeed carries a
matched order. -/
theorem c5_r013_flagging_witness :
    ((c5e1, some c5o1) ∈
      (rule_event_not_before_order_created cparse [c5o1] [c5e1]
        ("R013") ("warning")).2) ∧
    ((c5e1, some c5o1) : EventRow × Option OrderRow).2 ≠ none := by
  have h := c5_r013_flagging cparse rfl [c5o1] [c5e1] ("R013") ("warning")
  have hmem : (c5e1, some c5o1) ∈
      (rule_event_not_before_order_created cparse [c5o1] [c5e1]
        ("R013") ("warning")).2 :=
    (h.1 (c5e1, some c5o1)).mpr ⟨by decide, 3, 5, by decide, by decide, by decide⟩
  exact ⟨hmem, (h.2 (c5e1, some c5o1) hmem).1⟩

/-- Claim C8: the catalog run is deterministic — it is a pure function of the
two input datasets (and of the timestamp parser): equal inputs give equal
report and samples tables. The embedding is faithful to the source in using no
clock, randomness or state outside the arguments, which this purity records. -/
theorem c8_deterministic (parseTs : Val → Option Int)
    (orders1 orders2 : List OrderRow) (events1 events2 : List EventRow)
    (ho : orders1 = orders2) (he : events1 = events2) :
    run_quality_checks parseTs orders1 events1 =
      run_quality_checks parseTs orders2 events2 := by
  rw [ho, he]

/-- Witness for C8 at a concrete pair of datasets. -/
theorem c8_deterministic_witness :
    ([c5o1] : List OrderRow) = [c5o1] ∧
    run_quality_checks cparse [c5o1] [c5e1] =
      run_quality_checks cparse [c5o1] [c5e1] :=
  ⟨rfl, c8_deterministic cparse [c5o1] [c5o1] [c5e1] [c5e1] rfl rfl⟩

/-- A key column without duplicate values matches each key at most once. -/
theorem length_filter_key_le_one {α : Type} (l : List α) (f : α → Val)
    (hnd : (l.map f).Nodup) (v : Val) :
    (l.filter (fun x => decide (f x = v))).length ≤ 1 := by
  induction l with
  | nil => simp
  | cons a t ih =>
    rw [List.map_cons, List.nodup_cons] at hnd
    rw [List.filter_cons]
    by_cases ha : f a = v
    · rw [if_pos (by rw [decide_eq_true_eq]; exact ha)]
      have hnil : t.filter (fun x => decide (f x = v)) = [] := by
        rw [List.filter_eq_nil_iff]
        intro x hx hfx
        rw [decide_eq_true_eq] at hfx
        exact hnd.1 (by
          rw [ha, ← hfx]
          exact List.mem_map_of_mem f hx)
      rw [hnil]
      simp
    · rw [if_neg (by simp [ha])]
      exact ih hnd.2

/-- When the order ids are pairwise distinct, the left join keeps exactly one
row per event, so the joined frame has the length of the events frame. -/
theorem leftJoin_length_of_nodup (orders : List OrderRow) (events : List EventRow)
    (hnd : (orders.map (fun o => o.order_id)).Nodup) :
    (leftJoin events orders).length = events.length := by
  unfold leftJoin
  induction events with
  | nil => simp
  | cons e t ih =>
    rw [List.flatMap_cons, List.length_append, ih]
    have hone : ((fun e : EventRow =>
        let ms := orders.filter (fun o => decide (o.order_id = e.order_id))
        if ms.isEmpty then [(e, (none : Option OrderRow))]
        else ms.map (fun o => (e, some o))) e).length = 1 := by
      show (if (orders.filter (fun o => decide (o.order_id = e.order_id))).isEmpty
        then [(e, (none : Option OrderRow))]
        else (orders.filter (fun o => decide (o.order_id = e.order_id))).map
          (fun o => (e, some o))).length = 1
      by_cases hE : (orders.filter (fun o => decide (o.order_id = e.order_id))).isEmpty
      · rw [if_pos hE]
        rfl
      · rw [if_neg hE, List.length_map]
        have hle : (orders.filter (fun o => decide (o.order_id = e.order_id))).length ≤ 1 :=
          length_filter_key_le_one orders (fun o => o.order_id) hnd e.order_id
        have hpos : (orders.filter (fun o => decide (o.order_id = e.order_id))) ≠ [] := by
          intro hnil
          rw [hnil] at hE
          exact hE rfl
        have hpos2 := List.length_pos_iff_ne_nil.mpr hpos
        omega
    rw [hone, List.length_cons]
    omega

/-- Report produced by the runner: the thirteen rule summaries in catalog
order. -/
theorem run_report_eq (parseTs : Val → Option Int) (orders : List OrderRow)
    (events : List EventRow) :
    (run_quality_checks parseTs orders events).1 =
      [(rule_duplicate_pk events ("order_events") ("event_id")
          (fun e => e.event_id) ("R001") ("critical")).1,
       (rule_duplicate_pk orders ("orders") ("order_id")
          (fun o => o.order_id) ("R002") ("critical")).1,
       (rule_not_null events ("order_events")
          [fun e => e.event_id, fun e => e.order_id, fun e => e.event_type,
           fun e => e.event_timestamp]
          ["event_id", "order_id", "event_type", "event_timestamp"]
          (fun e => e.order_id) ("R003") ("critical")).1,
       (rule_not_null orders ("orders")
          [fun o => o.order_id, fun o => o.customer_id, fun o => o.order_created_at,
           fun o => o.order_amount, fun o => o.order_status]
          ["order_id", "customer_id", "order_created_at", "order_amount", "order_status"]
          (fun o => o.order_id) ("R004") ("critical")).1,
       (rule_allowed_values events ("order_events") (fun e => e.event_type)
          ("event_type") ALLOWED_EVENT_TYPES (fun e => e.order_id)
          ("R005") ("warning")).1,
       (rule_allowed_values orders ("orders") (fun o => o.order_status)
          ("order_status") ALLOWED_ORDER_STATUS (fun o => o.order_id)
          ("R006") ("warning")).1,
       (rule_amount_non_negative orders ("R007") ("warning")).1,
       (rule_orders_without_events orders events ("R008") ("warning")).1,
       (rule_events_without_orders orders events ("R009") ("warning")).1,
       (rule_completed_without_payment orders events ("R010") ("warning")).1,
       (rule_timestamp_parseable parseTs orders ("orders")
          (fun o => o.order_created_at) ("order_created_at") [fun o => o.order_id]
          ("R011") ("critical")).1,
       (rule_timestamp_parseable parseTs events ("order_events")
          (fun e => e.event_timestamp) ("event_timestamp")
          [fun e => e.order_id, fun e => e.event_id] ("R012") ("critical")).1,
       (rule_event_not_before_order_created parseTs orders events
          ("R013") ("warning")).1] := rfl

/-- Counterexample for C2: with two orders sharing order_id 1 and one event at
an earlier instant, the R013 left join duplicates the event row, and the
catalog run reports an R013 row with failed_rows = 2 against total_rows = 1 —
failed_rows ≤ total_rows fails on the report. -/
theorem c2_counterexample :
    (¬ ∀ r ∈ (run_quality_checks cparse c2DupOrders c2Events).1,
        r.failed_rows ≤ r.total_rows) ∧
    ((run_quality_checks cparse c2DupOrders c2Events).1[12]?).map
        (fun r => (r.failed_rows, r.total_rows)) = some (2, 1) := by
  constructor
  · decide
  · decide

/-- Claim C2 (amended): every report row satisfies
failure_rate = failed_rows / total_rows (0 when total_rows = 0); every row of
the rules R001 to R012 also satisfies failed_rows ≤ total_rows unconditionally;
the R013 row satisfies it provided the order ids of the orders dataset are
pairwise distinct (a duplicated order_id lets the R013 left join multiply event
rows, pushing failed_rows above total_rows — see the counterexample). Counts
are naturals, so 0 ≤ failed_rows holds by type. -/
theorem c2_amended_invariants (parseTs : Val → Option Int) (orders : List OrderRow)
    (events : List EventRow) :
    (∀ r ∈ (run_quality_checks parseTs orders events).1,
      r.failure_rate =
        (if r.total_rows = 0 then 0 else (r.failed_rows : ℚ) / (r.total_rows : ℚ)) ∧
      (r.rule_id ≠ "R013" → r.failed_rows ≤ r.total_rows)) ∧
    ((orders.map (fun o => o.order_id)).Nodup →
      ∀ r ∈ (run_quality_checks parseTs orders events).1,
        r.failed_rows ≤ r.total_rows) := by
  constructor
  · intro r hr
    rw [run_report_eq] at hr
    simp only [List.mem_cons, List.not_mem_nil, or_false] at hr
    rcases hr with rfl | rfl | rfl | rfl | rfl | rfl | rfl | rfl | rfl | rfl | rfl | rfl | rfl
    all_goals first
      | exact ⟨rfl, fun _ => List.length_filter_le _ _⟩
      | exact ⟨rfl, fun hne => absurd rfl hne⟩
  · intro hnd r hr
    rw [run_report_eq] at hr
    simp only [List.mem_cons, List.not_mem_nil, or_false] at hr
    rcases hr with rfl | rfl | rfl | rfl | rfl | rfl | rfl | rfl | rfl | rfl | rfl | rfl | rfl
    all_goals first
      | exact List.length_filter_le _ _
      | exact le_trans (List.length_filter_le _ _)
          (le_of_eq (leftJoin_length_of_nodup orders events hnd))

/-- Witness for C2 (amended) at a concrete pair of datasets with distinct
order ids. -/
theorem c2_amended_invariants_witness :
    (([c5o1].map (fun o => o.order_id)).Nodup ∧
      ∀ r ∈ (run_quality_checks cparse [c5o1] [c5e1]).1,
        r.failed_rows ≤ r.total_rows) :=
  ⟨by decide, (c2_amended_invariants cparse [c5o1] [c5e1]).2 (by decide)⟩

/-- Absence from a dropna-then-str() comparison set: every row either has a
null key (dropped) or a coerced key different from the probed string. -/
theorem not_mem_dropna_ids {α : Type} (l : List α) (key : α → Val) (s : String) :
    s ∉ (l.filter (fun x => !(decide (key x = Val.vnull)))).map (fun x => pyStr (key x)) ↔
      ∀ x ∈ l, key x = Val.vnull ∨ pyStr (key x) ≠ s := by
  constructor
  · intro h x hx
    by_cases hn : key x = Val.vnull
    · exact Or.inl hn
    · refine Or.inr fun hs => h ?_
      exact List.mem_map.mpr ⟨x, List.mem_filter.mpr ⟨hx, by simp [hn]⟩, hs⟩
  · intro h hmem
    obtain ⟨x, hxf, hs⟩ := List.mem_map.mp hmem
    obtain ⟨hx, hpred⟩ := List.mem_filter.mp hxf
    have hn : ¬ key x = Val.vnull := by simpa using hpred
    rcases h x hx with h1 | h2
    · exact hn h1
    · exact h2 hs

/-- Absence from the R010 paid set (no dropna): every event either is not a
payment confirmation or has a coerced order id different from the probed
string — a null order id is not dropped and participates as the string nan. -/
theorem not_mem_paid_orders (events : List EventRow) (s : String) :
    s ∉ paid_orders events ↔
      ∀ e ∈ events, ¬ e.event_type = Val.vstr ("payment_confirmed") ∨
        pyStr e.order_id ≠ s := by
  constructor
  · intro h e he
    by_cases ht : e.event_type = Val.vstr ("payment_confirmed")
    · refine Or.inr fun hs => h ?_
      exact List.mem_map.mpr ⟨e, List.mem_filter.mpr ⟨he, by simp [ht]⟩, hs⟩
    · exact Or.inl ht
  · intro h hmem
    obtain ⟨e, hef, hs⟩ := List.mem_map.mp hmem
    obtain ⟨he, hpred⟩ := List.mem_filter.mp hef
    have ht : e.event_type = Val.vstr ("payment_confirmed") := by simpa using hpred
    rcases h e he with h1 | h2
    · exact h1 ht
    · exact h2 hs

/-- Counterexample for C6: the coercion is case-sensitive — the order with id
A is flagged by R008 even though an event with id a exists (the claim, which
asserts case-insensitive matching, predicts it is not flagged) — and R010 does
not exclude null identifiers from its comparison set — the completed order
with a null id is not flagged because the null id of the payment event joined
the set as the string nan (the claim predicts failed_rows = 1 there). -/
theorem c6_id_matching_counterexample :
    (c6OrderA ∈
      (rule_orders_without_events [c6OrderA] [c6EventLower] ("R008") ("warning")).2) ∧
    ((rule_completed_without_payment [c6OrderNull] [c6EventNullPay]
      ("R010") ("warning")).1.failed_rows = 0) := by
  constructor
  · decide
  · decide

/-- Claim C6 (amended): R008, R009 and R010 compare identifiers as
str()-coerced strings — type-insensitive but case-sensitive; R008 and R009
drop null identifiers from their comparison sets before membership testing,
while R010 does not drop them (a null order id of a payment event joins its
set coerced to the string nan). Membership in each failing subset is fully
characterized by coerced-string comparison. -/
theorem c6_amended_id_matching (orders : List OrderRow) (events : List EventRow)
    (rid sev : String) :
    (∀ o ∈ orders,
      (o ∈ (rule_orders_without_events orders events rid sev).2 ↔
        ∀ e ∈ events, e.order_id = Val.vnull ∨ pyStr e.order_id ≠ pyStr o.order_id)) ∧
    (∀ e ∈ events,
      (e ∈ (rule_events_without_orders orders events rid sev).2 ↔
        ∀ o ∈ orders, o.order_id = Val.vnull ∨ pyStr o.order_id ≠ pyStr e.order_id)) ∧
    (∀ o ∈ orders, o.order_status = Val.vstr ("completed") →
      (o.order_id ∈ (rule_completed_without_payment orders events rid sev).2 ↔
        ∀ e ∈ events, ¬ e.event_type = Val.vstr ("payment_confirmed") ∨
          pyStr e.order_id ≠ pyStr o.order_id)) := by
  refine ⟨?_, ?_, ?_⟩
  · intro o ho
    have hbad : (rule_orders_without_events orders events rid sev).2 =
        orders.filter (fun o => decide (pyStr o.order_id ∉ event_order_ids events)) := rfl
    rw [hbad, List.mem_filter, decide_eq_true_eq]
    have hchar : pyStr o.order_id ∉ event_order_ids events ↔
        ∀ e ∈ events, e.order_id = Val.vnull ∨ pyStr e.order_id ≠ pyStr o.order_id :=
      not_mem_dropna_ids events (fun e => e.order_id) (pyStr o.order_id)
    rw [← hchar]
    exact ⟨fun h => h.2, fun h => ⟨ho, h⟩⟩
  · intro e he
    have hbad : (rule_events_without_orders orders events rid sev).2 =
        events.filter (fun e => decide (pyStr e.order_id ∉ order_ids orders)) := rfl
    rw [hbad, List.mem_filter, decide_eq_true_eq]
    have hchar : pyStr e.order_id ∉ order_ids orders ↔
        ∀ o ∈ orders, o.order_id = Val.vnull ∨ pyStr o.order_id ≠ pyStr e.order_id :=
      not_mem_dropna_ids orders (fun o => o.order_id) (pyStr e.order_id)
    rw [← hchar]
    exact ⟨fun h => h.2, fun h => ⟨he, h⟩⟩
  · intro o ho hst
    have hbad : (rule_completed_without_payment orders events rid sev).2 =
        (completed_order_ids orders).filter
          (fun v => decide (pyStr v ∉ paid_orders events)) := rfl
    have hcomp : o.order_id ∈ completed_order_ids orders :=
      List.mem_map_of_mem (fun o => o.order_id)
        (List.mem_filter.mpr ⟨ho, by rw [decide_eq_true_eq]; exact hst⟩)
    rw [hbad, List.mem_filter, decide_eq_true_eq]
    rw [← not_mem_paid_orders events (pyStr o.order_id)]
    exact ⟨fun h => h.2, fun h => ⟨hcomp, h⟩⟩

/-- Witness for C6 (amended): the integer order id 7 matches the string event
id 7 after coercion, so R008 does not flag the order; and with no events at
all, the completed order with a null id is flagged by R010. -/
theorem c6_amended_id_matching_witness :
    (c6OrderInt ∉
      (rule_orders_without_events [c6OrderInt] [c6EventStr] ("R008") ("warning")).2) ∧
    (c6OrderNull.order_id ∈
      (rule_completed_without_payment [c6OrderNull] [] ("R010") ("warning")).2) := by
  constructor
  · intro hmem
    exact absurd
      (((c6_amended_id_matching [c6OrderInt] [c6EventStr] ("R008") ("warning")).1
        c6OrderInt (by decide)).mp hmem)
      (by decide)
  · exact ((c6_amended_id_matching [c6OrderNull] [] ("R010") ("warning")).2.2
      c6OrderNull (by decide) (by decide)).mpr (by decide)

/-- Every row of a sample block carries the rule id of its block. -/
theorem mkSample_tag {α : Type} (rid : String) (bad : List α) (cols : List (α → Val)) :
    ∀ x ∈ mkSample rid bad cols, x.1 = rid := by
  intro x hx
  unfold mkSample at hx
  split at hx
  · exact absurd hx (List.not_mem_nil x)
  · obtain ⟨r, _, rfl⟩ := List.mem_map.mp hx
    rfl

/-- A sample block holds at most 50 rows. -/
theorem mkSample_length_le {α : Type} (rid : String) (bad : List α)
    (cols : List (α → Val)) : (mkSample rid bad cols).length ≤ 50 := by
  unfold mkSample
  split
  · simp
  · rw [List.length_map, List.length_take]
    exact min_le_left _ _

/-- A sample block for a failing frame of at least 50 rows holds exactly
50 rows. -/
theorem mkSample_length_of_long {α : Type} (rid : String) (bad : List α)
    (cols : List (α → Val)) (h : 50 ≤ bad.length) :
    (mkSample rid bad cols).length = 50 := by
  unfold mkSample
  rw [if_neg (by
    intro he
    rw [List.isEmpty_iff] at he
    rw [he] at h
    simp at h)]
  rw [List.length_map, List.length_take]
  omega

/-- Filtering a sample block by a different rule id yields nothing. -/
theorem filter_mkSample_ne {α : Type} (rid rid2 : String) (h : rid ≠ rid2)
    (bad : List α) (cols : List (α → Val)) :
    (mkSample rid bad cols).filter (fun x => decide (x.1 = rid2)) = [] := by
  rw [List.filter_eq_nil_iff]
  intro x hx
  rw [mkSample_tag rid bad cols x hx]
  simpa using h

/-- Filtering a sample block by its own rule id keeps it whole. -/
theorem filter_mkSample_self {α : Type} (rid : String) (bad : List α)
    (cols : List (α → Val)) :
    (mkSample rid bad cols).filter (fun x => decide (x.1 = rid)) =
      mkSample rid bad cols :=
  List.filter_eq_self.mpr (fun x hx => by
    rw [mkSample_tag rid bad cols x hx]
    simp)

/-- Flattened uniform-tag blocks with pairwise distinct tags and block length
at most 50: filtering by any tag keeps at most 50 rows. -/
theorem tagged_flatten_cap :
    ∀ blocks : List (String × List SampleRow),
      (blocks.map Prod.fst).Nodup →
      (∀ b ∈ blocks, (∀ x ∈ b.2, x.1 = b.1) ∧ b.2.length ≤ 50) →
      ∀ rid : String,
        (((blocks.map Prod.snd).flatten).filter
          (fun x => decide (x.1 = rid))).length ≤ 50 := by
  intro blocks
  induction blocks with
  | nil =>
    intro _ _ rid
    simp
  | cons b rest ih =>
    intro hnd hall rid
    rw [List.map_cons] at hnd
    rw [List.nodup_cons] at hnd
    have hb := hall b (List.mem_cons_self b rest)
    rw [List.map_cons, List.flatten_cons, List.filter_append,
      List.length_append]
    by_cases hr : b.1 = rid
    · have hrest0 : ((rest.map Prod.snd).flatten.filter
          (fun x => decide (x.1 = rid))).length = 0 := by
        rw [List.length_eq_zero, List.filter_eq_nil_iff]
        intro x hx
        obtain ⟨l, hl, hxl⟩ := List.mem_flatten.mp hx
        obtain ⟨p, hp, rfl⟩ := List.mem_map.mp hl
        have hxp := (hall p (List.mem_cons_of_mem b hp)).1 x hxl
        rw [hxp]
        simp only [decide_eq_true_eq]
        intro heq
        exact hnd.1 (by
          rw [hr, ← heq]
          exact List.mem_map_of_mem Prod.fst hp)
      have hhead : (b.2.filter (fun x => decide (x.1 = rid))).length ≤ 50 :=
        le_trans (List.length_filter_le _ _) hb.2
      omega
    · have hhead0 : b.2.filter (fun x => decide (x.1 = rid)) = [] := by
        rw [List.filter_eq_nil_iff]
        intro x hx
        rw [hb.1 x hx]
        simpa using hr
      rw [hhead0]
      have hrest := ih hnd.2 (fun p hp => hall p (List.mem_cons_of_mem b hp)) rid
      simpa using hrest

/-- Samples table produced by the runner: the flattening of the thirteen
per-rule blocks. -/
theorem run_samples_eq (parseTs : Val → Option Int) (orders : List OrderRow)
    (events : List EventRow) :
    (run_quality_checks parseTs orders events).2 =
      ((catalogSampleBlocks parseTs orders events).map Prod.snd).flatten := rfl

/-- On 200 identical events every row is a duplicate of the shared key, so the
duplicated-key frame is the whole input. -/
theorem dup_c7 : duplicatedKeepFalse c7Events (fun e => e.event_id) = c7Events := by
  unfold c7Events duplicatedKeepFalse
  rw [List.filter_eq_self]
  intro a ha
  have hae := List.eq_of_mem_replicate ha
  subst hae
  rw [decide_eq_true_eq, List.filter_replicate_of_pos (by decide),
    List.length_replicate]
  omega

/-- A sample block of an empty failing frame is empty. -/
theorem mkSample_eq_nil_of_len {α : Type} (rid : String) (bad : List α)
    (cols : List (α → Val)) (h : bad.length = 0) : mkSample rid bad cols = [] := by
  rw [List.length_eq_zero] at h
  rw [h]
  rfl

/-- Flattening blocks whose second components are all empty yields the empty
table. -/
theorem flatten_map_snd_nil {γ : Type} :
    ∀ blocks : List (String × List γ), (∀ b ∈ blocks, b.2 = []) →
      (blocks.map Prod.snd).flatten = ([] : List γ) := by
  intro blocks
  induction blocks with
  | nil => intro _; rfl
  | cons b rest ih =>
    intro h
    rw [List.map_cons, List.flatten_cons, h b (List.mem_cons_self b rest),
      List.nil_append]
    exact ih (fun p hp => h p (List.mem_cons_of_mem b hp))

set_option maxRecDepth 10000 in
/-- Claim C7: in every catalog run each rule contributes at most 50 rows to
the samples table, all tagged with its rule id in the leading column; if no
rule failed, the samples table is empty; and on 200 duplicate events the R001
summary still reports failed_rows = 200 while exactly 50 sample rows carry the
tag R001. -/
theorem c7_sample_cap (parseTs : Val → Option Int) (orders : List OrderRow)
    (events : List EventRow) :
    (∀ rid : String, ((run_quality_checks parseTs orders events).2.filter
        (fun x => decide (x.1 = rid))).length ≤ 50) ∧
    ((∀ r ∈ (run_quality_checks parseTs orders events).1, r.failed_rows = 0) →
      (run_quality_checks parseTs orders events).2 = []) ∧
    (((run_quality_checks cparse [] c7Events).1[0]?).map (fun r => r.failed_rows) =
      some 200) ∧
    (((run_quality_checks cparse [] c7Events).2.filter
        (fun x => decide (x.1 = ("R001")))).length = 50) := by
  refine ⟨?_, ?_, ?_, ?_⟩
  · intro rid
    rw [run_samples_eq]
    apply tagged_flatten_cap
    · have htags : (catalogSampleBlocks parseTs orders events).map Prod.fst =
        ["R001", "R002", "R003", "R004", "R005", "R006", "R007", "R008", "R009",
         "R010", "R011", "R012", "R013"] := rfl
      rw [htags]
      decide
    · intro b hb
      simp only [catalogSampleBlocks, List.mem_cons, List.not_mem_nil, or_false] at hb
      rcases hb with rfl|rfl|rfl|rfl|rfl|rfl|rfl|rfl|rfl|rfl|rfl|rfl|rfl
      all_goals exact ⟨mkSample_tag _ _ _, mkSample_length_le _ _ _⟩
  · intro h
    rw [run_report_eq] at h
    obtain ⟨h1, h⟩ := List.forall_mem_cons.mp h
    obtain ⟨h2, h⟩ := List.forall_mem_cons.mp h
    obtain ⟨h3, h⟩ := List.forall_mem_cons.mp h
    obtain ⟨h4, h⟩ := List.forall_mem_cons.mp h
    obtain ⟨h5, h⟩ := List.forall_mem_cons.mp h
    obtain ⟨h6, h⟩ := List.forall_mem_cons.mp h
    obtain ⟨h7, h⟩ := List.forall_mem_cons.mp h
    obtain ⟨h8, h⟩ := List.forall_mem_cons.mp h
    obtain ⟨h9, h⟩ := List.forall_mem_cons.mp h
    obtain ⟨h10, h⟩ := List.forall_mem_cons.mp h
    obtain ⟨h11, h⟩ := List.forall_mem_cons.mp h
    obtain ⟨h12, h⟩ := List.forall_mem_cons.mp h
    obtain ⟨h13, -⟩ := List.forall_mem_cons.mp h
    rw [run_samples_eq]
    apply flatten_map_snd_nil
    intro b hb
    simp only [catalogSampleBlocks, List.mem_cons, List.not_mem_nil, or_false] at hb
    rcases hb with rfl|rfl|rfl|rfl|rfl|rfl|rfl|rfl|rfl|rfl|rfl|rfl|rfl
    · exact mkSample_eq_nil_of_len _ _ _ h1
    · exact mkSample_eq_nil_of_len _ _ _ h2
    · exact mkSample_eq_nil_of_len _ _ _ h3
    · exact mkSample_eq_nil_of_len _ _ _ h4
    · exact mkSample_eq_nil_of_len _ _ _ h5
    · exact mkSample_eq_nil_of_len _ _ _ h6
    · exact mkSample_eq_nil_of_len _ _ _ h7
    · exact mkSample_eq_nil_of_len _ _ _ h8
    · exact mkSample_eq_nil_of_len _ _ _ h9
    · exact mkSample_eq_nil_of_len _ _ _ h10
    · exact mkSample_eq_nil_of_len _ _ _ h11
    · exact mkSample_eq_nil_of_len _ _ _ h12
    · exact mkSample_eq_nil_of_len _ _ _ h13
  · have h200 : (rule_duplicate_pk c7Events ("order_events") ("event_id")
        (fun e => e.event_id) ("R001") ("critical")).1.failed_rows = 200 := by
      show (duplicatedKeepFalse c7Events (fun e => e.event_id)).length = 200
      rw [dup_c7]
      show (List.replicate 200 c7DupEvent).length = 200
      rw [List.length_replicate]
    have hhead : ((run_quality_checks cparse [] c7Events).1[0]?) =
        some ((rule_duplicate_pk c7Events ("order_events") ("event_id")
          (fun e => e.event_id) ("R001") ("critical")).1) := rfl
    rw [hhead]
    exact congrArg some h200
  · have hlen : 50 ≤ (rule_duplicate_pk c7Events ("order_events") ("event_id")
        (fun e => e.event_id) ("R001") ("critical")).2.length := by
      show 50 ≤ (duplicatedKeepFalse c7Events (fun e => e.event_id)).length
      rw [dup_c7]
      show 50 ≤ (List.replicate 200 c7DupEvent).length
      rw [List.length_replicate]
      omega
    rw [run_samples_eq]
    simp only [catalogSampleBlocks, List.map_cons, List.map_nil, List.flatten_cons,
      List.flatten_nil, List.filter_append, List.length_append, List.filter_nil,
      List.length_nil]
    rw [filter_mkSample_self,
      filter_mkSample_ne ("R002") ("R001") (by decide),
      filter_mkSample_ne ("R003") ("R001") (by decide),
      filter_mkSample_ne ("R004") ("R001") (by decide),
      filter_mkSample_ne ("R005") ("R001") (by decide),
      filter_mkSample_ne ("R006") ("R001") (by decide),
      filter_mkSample_ne ("R007") ("R001") (by decide),
      filter_mkSample_ne ("R008") ("R001") (by decide),
      filter_mkSample_ne ("R009") ("R001") (by decide),
      filter_mkSample_ne ("R010") ("R001") (by decide),
      filter_mkSample_ne ("R011") ("R001") (by decide),
      filter_mkSample_ne ("R012") ("R001") (by decide),
      filter_mkSample_ne ("R013") ("R001") (by decide),
      mkSample_length_of_long _ _ _ hlen]
    rfl

/-- Witness for C7: on a one-order one-event pair passing every rule, every
summary reports zero failures and the samples table is empty. -/
theorem c7_sample_cap_witness :
    (∀ r ∈ (run_quality_checks cparse [c7GoodOrder] [c7GoodEvent]).1,
      r.failed_rows = 0) ∧
    (run_quality_checks cparse [c7GoodOrder] [c7GoodEvent]).2 = [] :=
  ⟨by decide,
   (c7_sample_cap cparse [c7GoodOrder] [c7GoodEvent]).2.1 (by decide)⟩

/-- Allocation preserves the two input references. -/
theorem heapPres_alloc {orders0 : List OrderRow} {events0 : List EventRow}
    {h : Heap} (obj : Obj) (hp : HeapPres orders0 events0 h) :
    HeapPres orders0 events0 (hAlloc h obj).1 := by
  obtain ⟨h0, h1, hl⟩ := hp
  refine ⟨?_, ?_, ?_⟩
  · show (h ++ [obj])[0]? = _
    rw [List.getElem?_append_left (by omega)]
    exact h0
  · show (h ++ [obj])[1]? = _
    rw [List.getElem?_append_left (by omega)]
    exact h1
  · show 2 ≤ (h ++ [obj]).length
    rw [List.length_append]
    omega

/-- Writing at a reference at least 2 preserves the two input references. -/
theorem heapPres_write {orders0 : List OrderRow} {events0 : List EventRow}
    {h : Heap} {i : Nat} (obj : Obj) (hi : 2 ≤ i)
    (hp : HeapPres orders0 events0 h) :
    HeapPres orders0 events0 (hWrite h i obj) := by
  obtain ⟨h0, h1, hl⟩ := hp
  refine ⟨?_, ?_, ?_⟩
  · show (h.set i obj)[0]? = _
    rw [List.getElem?_set_ne (by omega)]
    exact h0
  · show (h.set i obj)[1]? = _
    rw [List.getElem?_set_ne (by omega)]
    exact h1
  · show 2 ≤ (h.set i obj).length
    rw [List.length_set]
    exact hl

/-- The sample step allocates a fresh frame and mutates only that frame, so it
preserves the two input references. -/
theorem heapPres_sampleStep {α : Type} {orders0 : List OrderRow}
    {events0 : List EventRow} {h : Heap} (rid : String) (bad : List α)
    (cols : List (α → Val)) (hp : HeapPres orders0 events0 h) :
    HeapPres orders0 events0 (sampleStep h rid bad cols) := by
  unfold sampleStep
  split
  · exact hp
  · exact heapPres_write _ hp.2.2 (heapPres_alloc _ hp)

/-- The R013 heap step copies, writes parsed columns only to the copies, and
allocates the joined and failing frames, so it preserves the two input
references. -/
theorem heapPres_r013 {orders0 : List OrderRow} {events0 : List EventRow}
    (parseTs : Val → Option Int) {h : Heap} (hp : HeapPres orders0 events0 h) :
    HeapPres orders0 events0 (rule_event_not_before_order_created_h parseTs h) := by
  unfold rule_event_not_before_order_created_h
  have hp1 := heapPres_alloc (Obj.oF (hReadO h 0)) hp
  have hp2 := heapPres_alloc (Obj.eF (hReadE h 1)) hp1
  have hw1 := heapPres_write
    (Obj.opF ((hReadO h 0).map (fun o => (o, parseTs o.order_created_at))))
    (show 2 ≤ (hAlloc h (Obj.oF (hReadO h 0))).2 from hp.2.2) hp2
  have hw2 := heapPres_write
    (Obj.epF ((hReadE h 1).map (fun e => (e, parseTs e.event_timestamp))))
    (show 2 ≤ (hAlloc (hAlloc h (Obj.oF (hReadO h 0))).1 (Obj.eF (hReadE h 1))).2 by
      show 2 ≤ (h ++ [Obj.oF (hReadO h 0)]).length
      rw [List.length_append]
      have := hp.2.2
      omega) hw1
  exact heapPres_alloc _ (heapPres_alloc _ hw2)

/-- Claim C9: after a full heap-level catalog run, the caller-supplied orders
and events frames at references 0 and 1 are unchanged — every in-place write
of the run targets a frame allocated during the run (a working copy or a fresh
sample frame), never an input. -/
theorem c9_inputs_unchanged (parseTs : Val → Option Int)
    (orders0 : List OrderRow) (events0 : List EventRow) :
    (run_quality_checks_h parseTs orders0 events0)[0]? = some (Obj.oF orders0) ∧
    (run_quality_checks_h parseTs orders0 events0)[1]? = some (Obj.eF events0) := by
  have hbase : HeapPres orders0 events0 [Obj.oF orders0, Obj.eF events0] :=
    ⟨rfl, rfl, by simp⟩
  have hp : HeapPres orders0 events0 (run_quality_checks_h parseTs orders0 events0) := by
    unfold run_quality_checks_h
    apply heapPres_alloc
    apply heapPres_alloc
    apply heapPres_sampleStep
    apply heapPres_r013
    apply heapPres_sampleStep
    apply heapPres_alloc
    apply heapPres_sampleStep
    apply heapPres_alloc
    apply heapPres_sampleStep
    apply heapPres_alloc
    apply heapPres_alloc
    apply heapPres_sampleStep
    apply heapPres_alloc
    apply heapPres_sampleStep
    apply heapPres_alloc
    apply heapPres_sampleStep
    apply heapPres_alloc
    apply heapPres_sampleStep
    apply heapPres_alloc
    apply heapPres_sampleStep
    apply heapPres_alloc
    apply heapPres_sampleStep
    apply heapPres_alloc
    apply heapPres_sampleStep
    apply heapPres_alloc
    apply heapPres_sampleStep
    apply heapPres_alloc
    apply heapPres_sampleStep
    apply heapPres_alloc
    exact hbase
  exact ⟨hp.1, hp.2.1⟩
